import Mathlib

/-!
Verification of the doc-panel document pipeline and semantic-search core.

The repository ships the React frontend (src/frontend, src/unnamed/part_003
is the DocumentDetail page), a pgvector schema migration
(src/backend/create_database.sql, embedding column vector(1536), nullable),
and design documentation.  The backend orchestrator and search engine are
described by the specification only; definitions for them below are marked
as modelled from the spec.  Frontend functions are translated directly from
the TypeScript source.
-/

namespace DocPanel

/-- Document status enumeration, from DocumentStatus in
src/frontend/src/types/document.ts: uploading, processing, completed,
failed. -/
inductive Status where
  | uploading
  | processing
  | completed
  | failed
deriving DecidableEq, Repr

/-- Document record, from the Document interface in
src/frontend/src/types/document.ts together with the schema in
src/backend/create_database.sql: the embedding column is a nullable
vector(1536).  Vector entries are embedded as rationals and created_at as an
abstract timestamp (larger means more recent).  Fields not used by any claim
(file_path, file_type, file_size, category, summary, extracted_text) are
omitted. -/
structure Doc where
  id : Nat
  owner : Nat
  title : String
  status : Status
  embedding : Option (List ℚ)
  created_at : Nat
deriving DecidableEq, Repr

/-- Modelled from the spec: the events the pipeline orchestrator (backend
code, absent from src/) applies to one document.  start moves an uploaded
document into processing; finish commits the embed-stage output together
with the completed status; fail records an unrecoverable stage error;
reprocess is the user-triggered restart. -/
inductive Ev where
  | start
  | finish (v : List ℚ)
  | fail
  | reprocess
deriving DecidableEq, Repr

/-- Modelled from the spec, section 4.1: one guarded orchestrator transition.
uploading to processing runs no stage; processing to completed persists the
embedding transactionally with the status, and the schema
(create_database.sql) fixes its dimension at 1536; processing to failed keeps
earlier stage outputs but writes no embedding; reprocess resets a terminal document
to processing and clears the embedding before rerunning stages. -/
def stepDoc (d : Doc) (e : Ev) : Option Doc :=
  match e with
  | .start =>
      if d.status = Status.uploading then
        some { d with status := Status.processing }
      else none
  | .finish v =>
      if d.status = Status.processing ∧ v.length = 1536 then
        some { d with status := Status.completed, embedding := some v }
      else none
  | .fail =>
      if d.status = Status.processing then
        some { d with status := Status.failed }
      else none
  | .reprocess =>
      if d.status = Status.completed ∨ d.status = Status.failed then
        some { d with status := Status.processing, embedding := none }
      else none

/-- Modelled from the spec: submitDocument creates the document in status
uploading with no embedding. -/
def newDoc (id owner : Nat) (title : String) (created_at : Nat) : Doc :=
  { id := id, owner := owner, title := title, status := Status.uploading,
    embedding := none, created_at := created_at }

/-- Document states reachable through the orchestrator from creation. -/
inductive ReachableDoc : Doc → Prop where
  | init (id owner : Nat) (title : String) (c : Nat) :
      ReachableDoc (newDoc id owner title c)
  | step (d d' : Doc) (e : Ev) :
      ReachableDoc d → stepDoc d e = some d' → ReachableDoc d'

/-- The embedding invariant of section 8 of the spec: a completed document
has a 1536-dimensional embedding, every other document has none. -/
def EmbeddingInv (d : Doc) : Prop :=
  (d.status = Status.completed → ∃ v, d.embedding = some v ∧ v.length = 1536) ∧
  (d.status ≠ Status.completed → d.embedding = none)

/-- Badge record returned by getStatusBadge in the DocumentDetail page. -/
structure Badge where
  label : String
  className : String
deriving DecidableEq, Repr

/-- Badge for status uploading, from getStatusBadge in src/unnamed/part_003. -/
def uploadingBadge : Badge :=
  { label := "Yükleniyor",
    className := "bg-yellow-100 text-yellow-800 dark:bg-yellow-500/10 dark:text-yellow-300" }

/-- Badge for status processing, from getStatusBadge in src/unnamed/part_003. -/
def processingBadge : Badge :=
  { label := "OCR İşleniyor",
    className := "bg-blue-100 text-blue-800 dark:bg-blue-500/10 dark:text-blue-300" }

/-- Badge for status completed, from getStatusBadge in src/unnamed/part_003. -/
def completedBadge : Badge :=
  { label := "Tamamlandı",
    className := "bg-green-100 text-green-800 dark:bg-green-500/10 dark:text-green-300" }

/-- Badge for status failed, from getStatusBadge in src/unnamed/part_003. -/
def failedBadge : Badge :=
  { label := "Başarısız",
    className := "bg-red-100 text-red-800 dark:bg-red-500/10 dark:text-red-300" }

/-- Result of a JavaScript property access on the badges object literal: one
of its own badge entries, a member inherited from Object.prototype (a truthy
function or object), or undefined. -/
inductive JSValue where
  | badge (b : Badge)
  | protoMember (name : String)
  | undef
deriving DecidableEq, Repr

/-- The own keys of the badges object literal in getStatusBadge. -/
def statusKeys : List String :=
  ["uploading", "processing", "completed", "failed"]

/-- String-keyed members every plain JavaScript object literal inherits from
Object.prototype; each is a function (or, for __proto__, an object) and
therefore truthy. -/
def protoKeys : List String :=
  ["constructor", "hasOwnProperty", "isPrototypeOf", "propertyIsEnumerable",
   "toLocaleString", "toString", "valueOf", "__proto__", "__defineGetter__",
   "__defineSetter__", "__lookupGetter__", "__lookupSetter__"]

/-- The JavaScript member access badges[status]: an own key yields its badge;
a key naming an inherited Object.prototype member resolves through the
prototype chain to that member; every other string yields undefined. -/
def badgesLookup (status : String) : JSValue :=
  if status = "uploading" then JSValue.badge uploadingBadge
  else if status = "processing" then JSValue.badge processingBadge
  else if status = "completed" then JSValue.badge completedBadge
  else if status = "failed" then JSValue.badge failedBadge
  else if status ∈ protoKeys then JSValue.protoMember status
  else JSValue.undef

/-- JavaScript truthiness of a property-access result: badges and inherited
prototype members are truthy, undefined is falsy. -/
def isTruthy : JSValue → Bool
  | JSValue.badge _ => true
  | JSValue.protoMember _ => true
  | JSValue.undef => false

/-- getStatusBadge from src/unnamed/part_003 lines 8-28: badges[status] with
the JavaScript or-fallback to badges.uploading — the fallback fires only when
the looked-up value is falsy (undefined), so a truthy inherited prototype
member is returned as is. -/
def getStatusBadge (status : String) : JSValue :=
  if isTruthy (badgesLookup status) then badgesLookup status
  else JSValue.badge uploadingBadge

/-- Visibility of the reprocess button in DocumentDetail
(src/unnamed/part_003 line 181): the button is rendered exactly when
document.status === failed. -/
def showReprocessButton (status : String) : Bool :=
  status == "failed"

/-- refetchInterval callback of the DocumentDetail useQuery
(src/unnamed/part_003 lines 54-58): 2000 ms while the document is processing,
otherwise false (none, no polling); none input models an undefined document. -/
def refetchInterval (status : Option String) : Option Nat :=
  match status with
  | some s => if s = "processing" then some 2000 else none
  | none => none

/-- hasProcessing from src/frontend/src/pages/Home.tsx line 174: whether some
listed document has status processing. -/
def hasProcessing (statuses : List String) : Bool :=
  statuses.any (fun s => s == "processing")

/-- The Home.tsx polling effect (lines 178-188): a 5000 ms interval is
installed only while hasProcessing holds, otherwise no polling. -/
def homePollInterval (statuses : List String) : Option Nat :=
  if hasProcessing statuses then some 5000 else none

/-- Modelled from the spec: getStatus(documentId) is the read-only status
poll exposed by the backend (absent from src/); it returns the current status
and leaves the document store untouched. -/
def getStatus (store : List Doc) (i : Nat) : Option Status × List Doc :=
  ((store.find? (fun d => d.id == i)).map Doc.status, store)

/-- Whitespace test used by trimming: space, tab, newline, carriage
return. -/
def isSpaceChar (c : Char) : Bool :=
  c == ' ' || c == '\t' || c == '\n' || c == '\r'

/-- Executable model of the JavaScript string trim primitive used by the
frontend (query.trim()) and by the search validation: drop leading and
trailing whitespace. -/
def strTrim (s : String) : String :=
  String.mk (((s.data.dropWhile isSpaceChar).reverse.dropWhile
    isSpaceChar).reverse)

/-- SemanticSearchRequest from src/frontend/src/types/document.ts; the
threshold, a decimal number in the source, is embedded as a rational. -/
structure SemanticSearchRequest where
  query : String
  limit : Int
  threshold : ℚ
deriving DecidableEq, Repr

/-- Initial searchParams state of SemanticSearch.tsx lines 10-14: empty
query, limit 10, threshold 0.7. -/
def initialSearchParams : SemanticSearchRequest :=
  { query := "", limit := 10, threshold := mkRat 7 10 }

/-- handleSearch from SemanticSearch.tsx lines 29-37: only a query that is
nonempty after trimming is written (trimmed) into searchParams; otherwise the
params are left unchanged. -/
def handleSearch (q : String) (params : SemanticSearchRequest) :
    SemanticSearchRequest :=
  if (strTrim q).length > 0 then { params with query := strTrim q } else params

/-- The enabled option of the semantic-search useQuery (SemanticSearch.tsx
line 25): a request is issued only when searchParams.query.length > 0. -/
def queryEnabled (params : SemanticSearchRequest) : Bool :=
  params.query.length > 0

/-- Threshold onChange handler core (SemanticSearch.tsx line 108):
parseFloat(value) || 0.7.  none models a NaN parse; a parse of NaN or 0 falls
back to 0.7, any other parsed value is stored without clamping. -/
def thresholdFallback (parsed : Option ℚ) : ℚ :=
  match parsed with
  | none => mkRat 7 10
  | some x => if x = 0 then mkRat 7 10 else x

/-- Limit onChange handler core (SemanticSearch.tsx line 124):
parseInt(value) || 10.  none models a NaN parse; a parse of NaN or 0 falls
back to 10, any other parsed value is stored without clamping. -/
def limitFallback (parsed : Option Int) : Int :=
  match parsed with
  | none => 10
  | some n => if n = 0 then 10 else n

/-- The threshold onChange handler: stores the fallback value into the
searchParams state. -/
def onThresholdChange (parsed : Option ℚ) (params : SemanticSearchRequest) :
    SemanticSearchRequest :=
  { params with threshold := thresholdFallback parsed }

/-- The limit onChange handler: stores the fallback value into the
searchParams state. -/
def onLimitChange (parsed : Option Int) (params : SemanticSearchRequest) :
    SemanticSearchRequest :=
  { params with limit := limitFallback parsed }

/-- Modelled from the spec, section 4.2 step 1: the only search validation
error. -/
inductive SearchError where
  | invalidQuery
deriving DecidableEq, Repr

/-- One ranked search hit: a document together with its similarity score. -/
structure RankedResult where
  doc : Doc
  similarity : ℚ
deriving DecidableEq, Repr

/-- SemanticSearchResponse shape from src/frontend/src/types/document.ts:
the ranked results and the total count. -/
structure SearchResponse where
  results : List RankedResult
  total : Nat
deriving DecidableEq, Repr

/-- Outcome of one search call: either the validation error or the ranked
response. -/
inductive SearchReply where
  | error (e : SearchError)
  | ok (r : SearchResponse)
deriving DecidableEq, Repr

/-- Modelled from the spec: the observable effects of one search call — how
many embedding-provider calls and audit-sink writes it made, and its reply. -/
structure SearchOutcome where
  providerCalls : Nat
  auditWrites : Nat
  reply : SearchReply
deriving DecidableEq, Repr

/-- Modelled from the spec, section 4.2 step 5: the ranking order —
descending similarity, ties broken by most-recent created_at first. -/
def RankLE (a b : RankedResult) : Prop :=
  b.similarity < a.similarity ∨
    (a.similarity = b.similarity ∧ b.doc.created_at ≤ a.doc.created_at)

instance instDecRankLE : DecidableRel RankLE := fun a b =>
  inferInstanceAs (Decidable (b.similarity < a.similarity ∨
    (a.similarity = b.similarity ∧ b.doc.created_at ≤ a.doc.created_at)))

instance instTotalRankLE : IsTotal RankedResult RankLE where
  total a b := by
    rcases lt_trichotomy a.similarity b.similarity with h | h | h
    · exact Or.inr (Or.inl h)
    · rcases Nat.le_total a.doc.created_at b.doc.created_at with hc | hc
      · exact Or.inr (Or.inr ⟨h.symm, hc⟩)
      · exact Or.inl (Or.inr ⟨h, hc⟩)
    · exact Or.inl (Or.inl h)

instance instTransRankLE : IsTrans RankedResult RankLE where
  trans a b c hab hbc := by
    rcases hab with h1 | ⟨h1, h1c⟩
    · rcases hbc with h2 | ⟨h2, _⟩
      · exact Or.inl (h2.trans h1)
      · exact Or.inl (h2 ▸ h1)
    · rcases hbc with h2 | ⟨h2, h2c⟩
      · exact Or.inl (h1 ▸ h2)
      · exact Or.inr ⟨h1.trans h2, h2c.trans h1c⟩

/-- Modelled from the spec, section 4.2 step 3: candidates are the documents
owned by the requesting user whose status is completed. -/
def candidates (store : List Doc) (ownerId : Nat) : List Doc :=
  store.filter (fun d => decide (d.owner = ownerId ∧ d.status = Status.completed))

/-- Modelled from the spec, section 4.2 step 4: score one candidate by
cosine similarity to the query embedding.  A candidate with no stored
embedding, or whose similarity is undefined because of a zero-magnitude
vector (the similarity function returns none), is excluded rather than
scored. -/
def scoreDoc (sim : List ℚ → List ℚ → Option ℚ) (qe : List ℚ) (d : Doc) :
    Option RankedResult :=
  match d.embedding with
  | none => none
  | some e =>
    match sim qe e with
    | none => none
    | some s => some { doc := d, similarity := s }

/-- Modelled from the spec, section 4.2 step 4: score every candidate,
dropping the excluded ones. -/
def scoreDocs (sim : List ℚ → List ℚ → Option ℚ) (qe : List ℚ)
    (docs : List Doc) : List RankedResult :=
  docs.filterMap (scoreDoc sim qe)

/-- Modelled from the spec, section 4.2 step 4: only candidates with
similarity at least the threshold are retained. -/
def aboveThreshold (th : ℚ) (l : List RankedResult) : List RankedResult :=
  l.filter (fun r => decide (th ≤ r.similarity))

/-- Modelled from the spec, section 4.2 step 5: stable sort by descending
similarity with the created_at tie break. -/
def rankSort (l : List RankedResult) : List RankedResult :=
  List.insertionSort RankLE l

/-- Modelled from the spec, section 4.2 steps 2-6: the ranked result list —
the owner-restricted completed candidates are scored against the query
embedding, thresholded, sorted and truncated to the limit. -/
def rankedFor (sim : List ℚ → List ℚ → Option ℚ) (embedQ : String → List ℚ)
    (store : List Doc) (ownerId : Nat) (queryText : String) (th : ℚ)
    (lim : Nat) : List RankedResult :=
  (rankSort (aboveThreshold th
    (scoreDocs sim (embedQ queryText) (candidates store ownerId)))).take lim

/-- Modelled from the spec, section 4.2: the search engine (backend code,
absent from src/).  An empty-after-trim query is rejected with no provider
call and no audit write; otherwise the query is embedded (one provider call),
the ranked list is produced, and one audit record is written. -/
def search (sim : List ℚ → List ℚ → Option ℚ) (embedQ : String → List ℚ)
    (store : List Doc) (ownerId : Nat) (queryText : String) (th : ℚ)
    (lim : Nat) : SearchOutcome :=
  if strTrim queryText = "" then
    { providerCalls := 0, auditWrites := 0,
      reply := SearchReply.error SearchError.invalidQuery }
  else
    { providerCalls := 1, auditWrites := 1,
      reply := SearchReply.ok
        { results := rankedFor sim embedQ store ownerId queryText th lim,
          total := (rankedFor sim embedQ store ownerId queryText th lim).length } }

/-- Example document with similarity 0.9 in the worked ranking example. -/
def exDocA : Doc :=
  { id := 1, owner := 7, title := "a", status := Status.completed,
    embedding := some [1], created_at := 100 }

/-- Example document with similarity 0.75 in the worked ranking example. -/
def exDocB : Doc :=
  { id := 2, owner := 7, title := "b", status := Status.completed,
    embedding := some [2], created_at := 200 }

/-- Example document with similarity 0.5 in the worked ranking example. -/
def exDocC : Doc :=
  { id := 3, owner := 7, title := "c", status := Status.completed,
    embedding := some [3], created_at := 300 }

/-- Similarity function realising the worked example of the spec: scores 0.9,
0.75 and 0.5 against the three example documents. -/
def exSim : List ℚ → List ℚ → Option ℚ := fun _ e =>
  if e = [1] then some (mkRat 9 10)
  else if e = [2] then some (mkRat 3 4)
  else if e = [3] then some (mkRat 1 2)
  else none

/-- Query embedder for the worked example. -/
def exEmbed : String → List ℚ := fun _ => [0]

/-- Concrete search params used in the limit counterexample: a nonempty query
with the default limit and threshold. -/
def c6Params : SemanticSearchRequest :=
  { query := "contract", limit := 10, threshold := mkRat 7 10 }

/-- Witness document in status uploading. -/
def wDoc0 : Doc := newDoc 1 2 "t" 0

/-- Witness document after the start event. -/
def wDoc1 : Doc := { wDoc0 with status := Status.processing }

/-- Witness embedding vector of the schema dimension 1536. -/
def wVec : List ℚ := List.replicate 1536 0

/-- Witness document after the finish event. -/
def wDoc2 : Doc :=
  { wDoc1 with status := Status.completed, embedding := some wVec }

/-- Helper: the embedding invariant holds at document creation. -/
theorem embeddingInv_init (id owner : Nat) (t : String) (c : Nat) :
    EmbeddingInv (newDoc id owner t c) := by
  constructor
  · intro h
    exact absurd h (by simp [newDoc])
  · intro _
    rfl

/-- Helper: every orchestrator transition preserves the embedding invariant. -/
theorem embeddingInv_step (d d' : Doc) (e : Ev) (hd : EmbeddingInv d)
    (h : stepDoc d e = some d') : EmbeddingInv d' := by
  cases e with
  | start =>
      simp only [stepDoc] at h
      split at h
      next hc =>
        injection h with h2
        subst h2
        refine ⟨fun hcomp => ?_, fun _ => ?_⟩
        · simp at hcomp
        · show d.embedding = none
          exact hd.2 (by simp [hc])
      next => simp at h
  | finish v =>
      simp only [stepDoc] at h
      split at h
      next hc =>
        injection h with h2
        subst h2
        refine ⟨fun _ => ⟨v, rfl, hc.2⟩, fun hne => ?_⟩
        exact absurd rfl hne
      next => simp at h
  | fail =>
      simp only [stepDoc] at h
      split at h
      next hc =>
        injection h with h2
        subst h2
        refine ⟨fun hcomp => ?_, fun _ => ?_⟩
        · simp at hcomp
        · show d.embedding = none
          exact hd.2 (by simp [hc])
      next => simp at h
  | reprocess =>
      simp only [stepDoc] at h
      split at h
      next hc =>
        injection h with h2
        subst h2
        exact ⟨fun hcomp => by simp at hcomp, fun _ => rfl⟩
      next => simp at h

/-- Helper: every reachable document satisfies the embedding invariant. -/
theorem reachable_embeddingInv (d : Doc) (h : ReachableDoc d) :
    EmbeddingInv d := by
  induction h with
  | init id owner t c => exact embeddingInv_init id owner t c
  | step d d' e hr hstep ih => exact embeddingInv_step d d' e ih hstep

/-- C1: for every document reachable through the pipeline, the embedding is
non-null exactly when the status is completed; a completed document carries
an embedding of the schema dimension 1536, and a document in status
uploading, processing or failed carries none. -/
theorem c1_embedding_iff_completed (d : Doc) (h : ReachableDoc d) :
    (d.status = Status.completed ↔ d.embedding ≠ none) ∧
    (d.status = Status.completed → ∃ v, d.embedding = some v ∧ v.length = 1536) ∧
    ((d.status = Status.uploading ∨ d.status = Status.processing ∨
        d.status = Status.failed) → d.embedding = none) := by
  have hinv := reachable_embeddingInv d h
  refine ⟨⟨fun hc => ?_, fun hne => ?_⟩, hinv.1, fun h3 => ?_⟩
  · rcases hinv.1 hc with ⟨v, hv, _⟩
    simp [hv]
  · by_contra hnc
    exact hne (hinv.2 hnc)
  · refine hinv.2 ?_
    rcases h3 with h3 | h3 | h3 <;> simp [h3]

/-- Witness for C1 at a concretely reachable completed document. -/
theorem c1_witness :
    (wDoc2.status = Status.completed ↔ wDoc2.embedding ≠ none) ∧
    (wDoc2.status = Status.completed →
      ∃ v, wDoc2.embedding = some v ∧ v.length = 1536) ∧
    ((wDoc2.status = Status.uploading ∨ wDoc2.status = Status.processing ∨
        wDoc2.status = Status.failed) → wDoc2.embedding = none) := by
  have h0 : ReachableDoc wDoc0 := ReachableDoc.init 1 2 "t" 0
  have h1 : stepDoc wDoc0 Ev.start = some wDoc1 := by
    have hc : wDoc0.status = Status.uploading := rfl
    simp only [stepDoc, if_pos hc]
    rfl
  have h2 : stepDoc wDoc1 (Ev.finish wVec) = some wDoc2 := by
    have hc : wDoc1.status = Status.processing ∧ wVec.length = 1536 :=
      ⟨rfl, List.length_replicate 1536 0⟩
    simp only [stepDoc, if_pos hc]
    rfl
  exact c1_embedding_iff_completed wDoc2
    (ReachableDoc.step wDoc1 wDoc2 (Ev.finish wVec)
      (ReachableDoc.step wDoc0 wDoc1 Ev.start h0 h1) h2)

/-- C4 counterexample: the DocumentDetail page renders the reprocess action
only for failed documents; at status completed the button is absent, so
reprocess is not available from both terminal statuses as claimed. -/
theorem c4_counterexample :
    showReprocessButton "completed" = false ∧
    showReprocessButton "failed" = true := by
  decide

/-- C4 (amended): every orchestrator transition is one of uploading to
processing, processing to completed, processing to failed, or a reprocess of
a terminal document back to processing that clears the embedding; the
document-detail UI offers the reprocess action exactly for failed documents,
so only failed to processing is user-reachable through it. -/
theorem c4_transitions :
    (∀ (d d' : Doc) (e : Ev), stepDoc d e = some d' →
      (d.status = Status.uploading ∧ d'.status = Status.processing ∧
        d'.embedding = d.embedding) ∨
      (d.status = Status.processing ∧ d'.status = Status.completed) ∨
      (d.status = Status.processing ∧ d'.status = Status.failed ∧
        d'.embedding = d.embedding) ∨
      ((d.status = Status.completed ∨ d.status = Status.failed) ∧
        d'.status = Status.processing ∧ d'.embedding = none)) ∧
    (∀ s : String, showReprocessButton s = true ↔ s = "failed") := by
  constructor
  · intro d d' e h
    cases e with
    | start =>
        simp only [stepDoc] at h
        split at h
        next hc =>
          injection h with h2
          subst h2
          exact Or.inl ⟨hc, rfl, rfl⟩
        next => simp at h
    | finish v =>
        simp only [stepDoc] at h
        split at h
        next hc =>
          injection h with h2
          subst h2
          exact Or.inr (Or.inl ⟨hc.1, rfl⟩)
        next => simp at h
    | fail =>
        simp only [stepDoc] at h
        split at h
        next hc =>
          injection h with h2
          subst h2
          exact Or.inr (Or.inr (Or.inl ⟨hc, rfl, rfl⟩))
        next => simp at h
    | reprocess =>
        simp only [stepDoc] at h
        split at h
        next hc =>
          injection h with h2
          subst h2
          exact Or.inr (Or.inr (Or.inr ⟨hc, rfl, rfl⟩))
        next => simp at h
  · intro s
    constructor
    · intro h
      exact eq_of_beq h
    · intro h
      subst h
      rfl

/-- Witness for C4 at the concrete start transition. -/
theorem c4_witness :
    (wDoc0.status = Status.uploading ∧ wDoc1.status = Status.processing ∧
      wDoc1.embedding = wDoc0.embedding) ∨
    (wDoc0.status = Status.processing ∧ wDoc1.status = Status.completed) ∨
    (wDoc0.status = Status.processing ∧ wDoc1.status = Status.failed ∧
      wDoc1.embedding = wDoc0.embedding) ∨
    ((wDoc0.status = Status.completed ∨ wDoc0.status = Status.failed) ∧
      wDoc1.status = Status.processing ∧ wDoc1.embedding = none) := by
  refine c4_transitions.1 wDoc0 wDoc1 Ev.start ?_
  have hc : wDoc0.status = Status.uploading := rfl
  simp only [stepDoc, if_pos hc]
  rfl

/-- Helper: the handler default 0.7 written as a normalized fraction. -/
theorem mkRat_seven_tenths : mkRat 7 10 = 7/10 := by
  rw [Rat.mkRat_eq_div]
  norm_num

/-- C9: the threshold handler stores 0.7 for a NaN or zero parse and any
other parsed value unclamped; the limit handler stores 10 for a NaN or zero
parse and any other parsed value unclamped. -/
theorem c9_handler_fallbacks :
    (∀ p : SemanticSearchRequest, (onThresholdChange none p).threshold = 7/10) ∧
    (∀ p : SemanticSearchRequest,
      (onThresholdChange (some 0) p).threshold = 7/10) ∧
    (∀ x : ℚ, x ≠ 0 → ∀ p : SemanticSearchRequest,
      (onThresholdChange (some x) p).threshold = x) ∧
    (∀ p : SemanticSearchRequest, (onLimitChange none p).limit = 10) ∧
    (∀ p : SemanticSearchRequest, (onLimitChange (some 0) p).limit = 10) ∧
    (∀ n : Int, n ≠ 0 → ∀ p : SemanticSearchRequest,
      (onLimitChange (some n) p).limit = n) := by
  refine ⟨fun p => mkRat_seven_tenths, fun p => ?_, fun x hx p => ?_,
    fun p => rfl, fun p => ?_, fun n hn p => ?_⟩
  · show thresholdFallback (some 0) = 7/10
    simp [thresholdFallback, mkRat_seven_tenths]
  · show thresholdFallback (some x) = x
    simp [thresholdFallback, hx]
  · show limitFallback (some 0) = 10
    simp [limitFallback]
  · show limitFallback (some n) = n
    simp [limitFallback, hn]

/-- Witness for C9 at parses outside the advertised ranges. -/
theorem c9_witness :
    (onThresholdChange (some 2) initialSearchParams).threshold = 2 ∧
    (onLimitChange (some 100) initialSearchParams).limit = 100 :=
  ⟨c9_handler_fallbacks.2.2.1 2 (by decide) initialSearchParams,
   c9_handler_fallbacks.2.2.2.2.2 100 (by decide) initialSearchParams⟩

/-- C10 counterexample: at the status string toString — outside the four
known statuses — badges[status] resolves to the truthy inherited
Object.prototype.toString, which short-circuits the or-fallback, so
getStatusBadge returns that member and not the uploading badge. -/
theorem c10_counterexample :
    getStatusBadge "toString" = JSValue.protoMember "toString" ∧
    getStatusBadge "toString" ≠ JSValue.badge uploadingBadge ∧
    "toString" ≠ "uploading" ∧ "toString" ≠ "processing" ∧
    "toString" ≠ "completed" ∧ "toString" ≠ "failed" := by
  decide

/-- C10 (amended): getStatusBadge never yields undefined — the four known
statuses yield their badges; a status naming an inherited Object.prototype
member returns that truthy member, not a badge, because it short-circuits the
or-fallback; every other string falls back to the uploading badge. -/
theorem c10_badge_resolution :
    (∀ s : String, getStatusBadge s ≠ JSValue.undef) ∧
    (∀ s : String, s ∉ statusKeys → s ∉ protoKeys →
      getStatusBadge s = JSValue.badge uploadingBadge) ∧
    (∀ s : String, s ∈ protoKeys →
      getStatusBadge s = JSValue.protoMember s) ∧
    getStatusBadge "uploading" = JSValue.badge uploadingBadge ∧
    getStatusBadge "processing" = JSValue.badge processingBadge ∧
    getStatusBadge "completed" = JSValue.badge completedBadge ∧
    getStatusBadge "failed" = JSValue.badge failedBadge := by
  refine ⟨?_, ?_, ?_, by decide, by decide, by decide, by decide⟩
  · intro s
    unfold getStatusBadge
    split
    next h =>
      intro hu
      rw [hu] at h
      simp [isTruthy] at h
    next h => simp
  · intro s h1 h2
    have hl : badgesLookup s = JSValue.undef := by
      unfold badgesLookup
      rw [if_neg (fun h => h1 (by simp [statusKeys, h])),
        if_neg (fun h => h1 (by simp [statusKeys, h])),
        if_neg (fun h => h1 (by simp [statusKeys, h])),
        if_neg (fun h => h1 (by simp [statusKeys, h])),
        if_neg h2]
    unfold getStatusBadge
    rw [hl]
    rfl
  · intro s hs
    simp only [protoKeys, List.mem_cons, List.not_mem_nil, or_false] at hs
    rcases hs with rfl | rfl | rfl | rfl | rfl | rfl | rfl | rfl | rfl |
      rfl | rfl | rfl <;> decide

/-- Witness for C10 at an unknown status string and an inherited prototype
member name. -/
theorem c10_witness :
    getStatusBadge "unknown" = JSValue.badge uploadingBadge ∧
    getStatusBadge "valueOf" = JSValue.protoMember "valueOf" :=
  ⟨c10_badge_resolution.2.1 "unknown" (by decide) (by decide),
   c10_badge_resolution.2.2.1 "valueOf" (by decide)⟩

/-- Helper: a scored result keeps the candidate document it was scored
from. -/
theorem scoreDoc_doc_eq (sim : List ℚ → List ℚ → Option ℚ) (qe : List ℚ)
    (d : Doc) (r : RankedResult) (h : scoreDoc sim qe d = some r) :
    r.doc = d := by
  unfold scoreDoc at h
  split at h
  · simp at h
  · split at h
    · simp at h
    · injection h with h2
      subst h2
      rfl

/-- Helper: membership in the ranked list before truncation is exactly
membership among the scored candidates at or above the threshold. -/
theorem mem_rankSort_aboveThreshold (th : ℚ) (l : List RankedResult)
    (r : RankedResult) :
    r ∈ rankSort (aboveThreshold th l) ↔ r ∈ l ∧ th ≤ r.similarity := by
  unfold rankSort aboveThreshold
  rw [List.mem_insertionSort, List.mem_filter, decide_eq_true_eq]

/-- Helper: every member of a produced result list is a scored candidate of
the requesting owner with status completed and similarity at or above the
threshold. -/
theorem mem_rankedFor (sim : List ℚ → List ℚ → Option ℚ)
    (embedQ : String → List ℚ) (store : List Doc) (ownerId : Nat)
    (q : String) (th : ℚ) (lim : Nat) (r : RankedResult)
    (hr : r ∈ rankedFor sim embedQ store ownerId q th lim) :
    r.doc ∈ store ∧ r.doc.owner = ownerId ∧
      r.doc.status = Status.completed ∧ th ≤ r.similarity := by
  unfold rankedFor at hr
  have h1 := (List.take_sublist lim _).subset hr
  rw [mem_rankSort_aboveThreshold] at h1
  rcases h1 with ⟨h2, hth⟩
  unfold scoreDocs at h2
  rcases List.mem_filterMap.mp h2 with ⟨d, hd, hfd⟩
  have hdoc := scoreDoc_doc_eq sim (embedQ q) d r hfd
  unfold candidates at hd
  rcases List.mem_filter.mp hd with ⟨hmem, hpred⟩
  have hps := of_decide_eq_true hpred
  rw [hdoc]
  exact ⟨hmem, hps.1, hps.2, hth⟩

/-- C2: the search engine only ever returns documents whose status is
completed, whatever the store, owner, query, threshold and limit. -/
theorem c2_search_only_completed (sim : List ℚ → List ℚ → Option ℚ)
    (embedQ : String → List ℚ) (store : List Doc) (ownerId : Nat)
    (q : String) (th : ℚ) (lim : Nat) (resp : SearchResponse)
    (r : RankedResult)
    (hresp : (search sim embedQ store ownerId q th lim).reply =
      SearchReply.ok resp)
    (hr : r ∈ resp.results) : r.doc.status = Status.completed := by
  unfold search at hresp
  split at hresp
  · simp at hresp
  · injection hresp with h2
    subst h2
    exact (mem_rankedFor sim embedQ store ownerId q th lim r hr).2.2.1

/-- Witness for C2 at the worked three-document example. -/
theorem c2_witness :
    ({ doc := exDocA, similarity := mkRat 9 10 } : RankedResult).doc.status =
      Status.completed := by
  refine c2_search_only_completed exSim exEmbed [exDocA, exDocB, exDocC] 7
    "q" (mkRat 7 10) 10
    { results := [{ doc := exDocA, similarity := mkRat 9 10 },
                  { doc := exDocB, similarity := mkRat 3 4 }], total := 2 }
    { doc := exDocA, similarity := mkRat 9 10 } ?_ ?_
  · decide
  · decide

/-- C3: a successful search reply is sorted by descending similarity with
ties broken by most-recent created_at, is truncated to the limit, and keeps
only similarities at or above the threshold; before truncation it retains
exactly the scored candidates at or above the threshold; and on the worked
example (similarities 0.9, 0.75, 0.5; threshold 0.7; limit 10) the result
order is the 0.9 document then the 0.75 document, the 0.5 one excluded. -/
theorem c3_ranking :
    (∀ (sim : List ℚ → List ℚ → Option ℚ) (embedQ : String → List ℚ)
        (store : List Doc) (ownerId : Nat) (q : String) (th : ℚ) (lim : Nat)
        (resp : SearchResponse),
        (search sim embedQ store ownerId q th lim).reply = SearchReply.ok resp →
        List.Sorted RankLE resp.results ∧ resp.results.length ≤ lim ∧
          ∀ r ∈ resp.results, th ≤ r.similarity) ∧
    (∀ (sim : List ℚ → List ℚ → Option ℚ) (qe : List ℚ) (docs : List Doc)
        (th : ℚ) (r : RankedResult),
        r ∈ rankSort (aboveThreshold th (scoreDocs sim qe docs)) ↔
          r ∈ scoreDocs sim qe docs ∧ th ≤ r.similarity) ∧
    search exSim exEmbed [exDocA, exDocB, exDocC] 7 "q" (mkRat 7 10) 10 =
      { providerCalls := 1, auditWrites := 1,
        reply := SearchReply.ok
          { results := [{ doc := exDocA, similarity := mkRat 9 10 },
                        { doc := exDocB, similarity := mkRat 3 4 }],
            total := 2 } } := by
  refine ⟨?_, ?_, by decide⟩
  · intro sim embedQ store ownerId q th lim resp hresp
    unfold search at hresp
    split at hresp
    · simp at hresp
    · injection hresp with h2
      subst h2
      refine ⟨?_, ?_, ?_⟩
      · exact List.Pairwise.sublist (List.take_sublist lim _)
          (List.sorted_insertionSort RankLE _)
      · exact List.length_take_le lim _
      · intro r hr
        exact (mem_rankedFor sim embedQ store ownerId q th lim r hr).2.2.2
  · intro sim qe docs th r
    exact mem_rankSort_aboveThreshold th (scoreDocs sim qe docs) r

/-- Witness for C3: the general part applied to the worked example reply. -/
theorem c3_witness :
    List.Sorted RankLE
      [({ doc := exDocA, similarity := mkRat 9 10 } : RankedResult),
       { doc := exDocB, similarity := mkRat 3 4 }] ∧
    ([({ doc := exDocA, similarity := mkRat 9 10 } : RankedResult),
       { doc := exDocB, similarity := mkRat 3 4 }]).length ≤ 10 ∧
    ∀ r ∈ [({ doc := exDocA, similarity := mkRat 9 10 } : RankedResult),
       { doc := exDocB, similarity := mkRat 3 4 }], mkRat 7 10 ≤ r.similarity := by
  refine c3_ranking.1 exSim exEmbed [exDocA, exDocB, exDocC] 7 "q" (mkRat 7 10) 10
    { results := [{ doc := exDocA, similarity := mkRat 9 10 },
                  { doc := exDocB, similarity := mkRat 3 4 }], total := 2 } ?_
  rw [c3_ranking.2.2]

/-- C5: an empty-after-trim query is rejected with InvalidQuery, makes no
embedding-provider call and writes no audit record; in the frontend,
handleSearch ignores such an input and the initial empty query leaves the
search request disabled, so no request is issued for it. -/
theorem c5_empty_query_rejected :
    (∀ (sim : List ℚ → List ℚ → Option ℚ) (embedQ : String → List ℚ)
        (store : List Doc) (ownerId : Nat) (q : String) (th : ℚ) (lim : Nat),
        strTrim q = "" →
        search sim embedQ store ownerId q th lim =
          { providerCalls := 0, auditWrites := 0,
            reply := SearchReply.error SearchError.invalidQuery }) ∧
    (∀ (q : String) (params : SemanticSearchRequest), strTrim q = "" →
        handleSearch q params = params) ∧
    queryEnabled initialSearchParams = false := by
  refine ⟨?_, ?_, rfl⟩
  · intro sim embedQ store ownerId q th lim hq
    unfold search
    rw [if_pos hq]
  · intro q params hq
    unfold handleSearch
    rw [if_neg (by rw [hq]; decide)]

/-- Witness for C5 at the empty query. -/
theorem c5_witness :
    search exSim exEmbed [] 1 "" (mkRat 7 10) 10 =
      { providerCalls := 0, auditWrites := 0,
        reply := SearchReply.error SearchError.invalidQuery } ∧
    handleSearch "" initialSearchParams = initialSearchParams :=
  ⟨c5_empty_query_rejected.1 exSim exEmbed [] 1 "" (mkRat 7 10) 10 (by decide),
   c5_empty_query_rejected.2.1 "" initialSearchParams (by decide)⟩

/-- C6 counterexample: typing 100 into the limit input stores 100 — outside
the advertised 1 to 50 range — and, with a nonempty current query, the
request is enabled and thus issued with that limit. -/
theorem c6_counterexample :
    (onLimitChange (some 100) c6Params).limit = 100 ∧
    ¬ (onLimitChange (some 100) c6Params).limit ≤ 50 ∧
    queryEnabled (onLimitChange (some 100) c6Params) = true := by
  decide

/-- C6 (amended): the defaults are threshold 0.7 and limit 10 — the initial
search params carry them and submitting a query leaves both untouched, so a
search issued without editing the advanced options uses them — but the limit
handler stores any nonzero parsed value unclamped, so an issued request may
carry a limit outside 1 to 50. -/
theorem c6_defaults :
    initialSearchParams.threshold = 7/10 ∧ initialSearchParams.limit = 10 ∧
    (∀ (q : String) (p : SemanticSearchRequest),
        (handleSearch q p).threshold = p.threshold ∧
        (handleSearch q p).limit = p.limit) ∧
    (∀ n : Int, n ≠ 0 → limitFallback (some n) = n) := by
  refine ⟨mkRat_seven_tenths, rfl, ?_, ?_⟩
  · intro q p
    unfold handleSearch
    split
    · exact ⟨rfl, rfl⟩
    · exact ⟨rfl, rfl⟩
  · intro n hn
    simp [limitFallback, hn]

/-- Witness for C6: an out-of-range parse is stored as is, and submitting a
query keeps the default limit. -/
theorem c6_witness :
    limitFallback (some 100) = 100 ∧
    (handleSearch "q" initialSearchParams).limit = initialSearchParams.limit :=
  ⟨c6_defaults.2.2.2 100 (by decide),
   (c6_defaults.2.2.1 "q" initialSearchParams).2⟩

/-- C7: a valid query whose thresholded candidate set is empty yields a
successful reply with an empty ranked list and total 0, not an error. -/
theorem c7_no_candidates_empty_ok (sim : List ℚ → List ℚ → Option ℚ)
    (embedQ : String → List ℚ) (store : List Doc) (ownerId : Nat)
    (q : String) (th : ℚ) (lim : Nat) (hq : strTrim q ≠ "")
    (hempty : aboveThreshold th
      (scoreDocs sim (embedQ q) (candidates store ownerId)) = []) :
    search sim embedQ store ownerId q th lim =
      { providerCalls := 1, auditWrites := 1,
        reply := SearchReply.ok { results := [], total := 0 } } := by
  unfold search rankedFor
  rw [if_neg hq, hempty,
    show rankSort ([] : List RankedResult) = [] from rfl, List.take_nil]
  rfl

/-- Witness for C7 at an empty store. -/
theorem c7_witness :
    search exSim exEmbed [] 1 "q" (mkRat 7 10) 10 =
      { providerCalls := 1, auditWrites := 1,
        reply := SearchReply.ok { results := [], total := 0 } } :=
  c7_no_candidates_empty_ok exSim exEmbed [] 1 "q" (mkRat 7 10) 10 (by decide)
    (by decide)

/-- C8 counterexample: at status uploading — which is not terminal — the
DocumentDetail refetchInterval is already false, so the client does not poll
until a terminal status is reached. -/
theorem c8_counterexample :
    refetchInterval (some "uploading") = none ∧
    "uploading" ≠ "completed" ∧ "uploading" ≠ "failed" := by
  decide

/-- C8 (amended): the DocumentDetail client polls at the fixed 2000 ms
interval exactly while the status is processing, so polling is off at both
terminal statuses (and also at uploading); the Home page installs its 5000 ms
interval exactly while some listed document is processing; and getStatus is a
pure read that leaves the document store unchanged. -/
theorem c8_polling :
    (∀ s : String, refetchInterval (some s) = some 2000 ↔ s = "processing") ∧
    refetchInterval (some "completed") = none ∧
    refetchInterval (some "failed") = none ∧
    refetchInterval none = none ∧
    (∀ statuses : List String,
        homePollInterval statuses = some 5000 ↔
          hasProcessing statuses = true) ∧
    (∀ (store : List Doc) (i : Nat), (getStatus store i).2 = store) := by
  refine ⟨?_, by decide, by decide, rfl, ?_, fun store i => rfl⟩
  · intro s
    simp only [refetchInterval]
    split
    next hc => simp [hc]
    next hc => simp [hc]
  · intro statuses
    unfold homePollInterval
    split
    next hc => simp [hc]
    next hc => simp [hc]

end DocPanel
